import Mathlib

/-!
ChatLog browser client (`static/chat.js`).

A shallow embedding of the chat client: the module-level variables, the parts
of the DOM the handlers read and write, and the browser environment the
handlers talk to (sockets, timers, persisted storage, outgoing requests) are
fields of one `State`; every handler of `chat.js` is a function on that state.
Asynchronous functions are split at their `await`: the part that issues the
request, and the continuation that runs on the response.
-/

namespace ChatLog

/-! ## JavaScript strings -/

/-- White space and line terminators, the characters `String.prototype.trim` strips. -/
def isJsWhitespace (c : Char) : Bool :=
  let n := c.toNat
  n == 0x09 || n == 0x0A || n == 0x0B || n == 0x0C || n == 0x0D || n == 0x20 || n == 0xA0 ||
  n == 0x1680 || (0x2000 ≤ n && n ≤ 0x200A) || n == 0x2028 || n == 0x2029 || n == 0x202F ||
  n == 0x205F || n == 0x3000 || n == 0xFEFF

/-- The method `trim()` of a string. -/
def jsTrim (s : String) : String :=
  ⟨((s.data.dropWhile isJsWhitespace).reverse.dropWhile isJsWhitespace).reverse⟩

/-- The property `length` of a string: its number of UTF-16 code units. -/
def jsLength (s : String) : Nat :=
  (s.data.map (fun c => if c.toNat < 0x10000 then 1 else 2)).sum

/-- The expression `a || b` on strings: the empty string is falsy. -/
def jsOr (a : Option String) (b : String) : String :=
  match a with
  | some x => if x = "" then b else x
  | none => b

/-! ## Data model -/

/-- The constants of `WebSocket.readyState`. -/
inductive ReadyState
  | CONNECTING
  | OPEN
  | CLOSING
  | CLOSED
  deriving DecidableEq

/-- The frames the client writes to the socket. -/
inductive Frame
  | join (username : Option String) (channel : String)
  | typing (status : Bool)
  | change_channel (channel : String)
  | message (text : String)
  deriving DecidableEq

/-- The HTTP requests issued through `fetch`. -/
inductive Request
  | postLogin (username password : String)
  | postRegister (username email password : String)
  | getChannels
  | getMessages (channel : String)
  deriving DecidableEq

/-- Observable actions of the client, recorded in order with the time they happen. -/
inductive Effect
  | send (socket : Nat) (frame : Frame)
  | fetch (request : Request)
  | scroll (height : Nat)
  deriving DecidableEq

/-- The callbacks handed to `setTimeout` by the modelled handlers. -/
inductive TimerAction
  | connectWebSocket
  | typingIdle
  deriving DecidableEq

/-- A pending timer: its handle, the time it is due (ms) and its callback. -/
structure Timer where
  id : Nat
  due : Nat
  action : TimerAction
  deriving DecidableEq

/-- A child `div` of a message node. -/
structure Div where
  className : String
  textContent : String
  title : String
  deriving DecidableEq

/-- A message node of the feed (`chatBox`). -/
structure Node where
  classList : List String
  dataMessageId : String
  children : List Div
  contextmenu : Bool
  deriving DecidableEq

/-- An entry of the channel directory. -/
structure ChannelItem where
  textContent : String
  channel : String
  active : Bool
  deriving DecidableEq

/-- A message of the history endpoint. -/
structure HistoryMessage where
  id : String
  username : String
  message : String
  timestamp : String
  deriving DecidableEq

/-- The two time formatters, which depend on the time zone and locale of the browser. -/
structure Locale where
  formatTime : String → String
  formatFullDate : String → String

/-- The response of the login and register endpoints, as the continuation sees it. -/
inductive AuthResponse
  | ok (username : String)
  | rejected (detail : Option String)
  | networkError
  deriving DecidableEq

/-- The whole client. -/
structure State where
  -- module-level variables
  ws : Option Nat
  currentChannel : String
  username : Option String
  typingTimeout : Option Nat
  isTyping : Bool
  typingUsers : List String
  -- DOM
  loginScreen : String
  registerScreen : String
  chatScreen : String
  chatBox : List Node
  messageInput : String
  statusText : String
  statusClass : String
  channelsList : List ChannelItem
  currentChannelHeader : String
  currentUserText : String
  typingIndicatorText : String
  typingIndicatorDisplay : String
  loginUsername : String
  loginPassword : String
  loginError : String
  registerUsername : String
  registerEmail : String
  registerPassword : String
  registerError : String
  -- browser environment
  localStorage : Option String
  sockets : List ReadyState
  timers : List Timer
  nextTimerId : Nat
  now : Nat
  log : List (Nat × Effect)
  deriving DecidableEq

/-- Record an effect at the current time. -/
def emit (s : State) (e : Effect) : State :=
  { s with log := s.log ++ [(s.now, e)] }

/-- The frames written to sockets, in order, each with its time and socket. -/
def sentFrames (log : List (Nat × Effect)) : List (Nat × Nat × Frame) :=
  log.filterMap (fun p =>
    match p.2 with
    | Effect.send i f => some (p.1, i, f)
    | _ => none)

/-- The socket behind `ws` when `ws && ws.readyState === WebSocket.OPEN` holds. -/
def openSocket (s : State) : Option Nat :=
  match s.ws with
  | some i => if s.sockets[i]? = some ReadyState.OPEN then some i else none
  | none => none

/-! ## Timers -/

/-- The call `setTimeout(action, delay)`; the handle returned is the old `nextTimerId`. -/
def setTimeout (s : State) (action : TimerAction) (delay : Nat) : State :=
  { s with timers := s.timers ++ [⟨s.nextTimerId, s.now + delay, action⟩],
           nextTimerId := s.nextTimerId + 1 }

/-- The call `clearTimeout(handle)`; a null or stale handle is ignored. -/
def clearTimeout (s : State) (handle : Option Nat) : State :=
  match handle with
  | some h => { s with timers := s.timers.filter (fun t => t.id != h) }
  | none => s

/-! ## Screens -/

def showLogin (s : State) : State :=
  { s with loginScreen := "block", registerScreen := "none", chatScreen := "none" }

def showRegister (s : State) : State :=
  { s with loginScreen := "none", registerScreen := "block", chatScreen := "none" }

def showChat (s : State) : State :=
  { s with loginScreen := "none", registerScreen := "none", chatScreen := "flex" }

/-! ## Typing indicator -/

def sendTypingStatus (s : State) (status : Bool) : State :=
  match openSocket s with
  | some i => emit s (Effect.send i (Frame.typing status))
  | none => s

def updateTypingIndicator (s : State) : State :=
  if s.typingUsers.length = 0 then
    { s with typingIndicatorDisplay := "none" }
  else
    let users := s.typingUsers.take 3
    let text := ", ".intercalate users
    let text := if s.typingUsers.length = 1 then text ++ " yazıyor..." else text ++ " yazıyorlar..."
    { s with typingIndicatorText := text, typingIndicatorDisplay := "block" }

/-- The set `typingUsers` is kept as the list of its members in insertion order. -/
def handleTypingIndicator (s : State) (user : String) (status : Bool) : State :=
  let s := if status then
      (if user ∈ s.typingUsers then s else { s with typingUsers := s.typingUsers ++ [user] })
    else
      { s with typingUsers := s.typingUsers.filter (fun u => u != user) }
  updateTypingIndicator s

/-- The listener of the event `input` on the message box. -/
def onInput (s : State) : State :=
  let s := if !s.isTyping && jsLength s.messageInput > 0 then
      sendTypingStatus { s with isTyping := true } true
    else s
  let s := clearTimeout s s.typingTimeout
  let handle := s.nextTimerId
  let s := setTimeout s TimerAction.typingIdle 2000
  { s with typingTimeout := some handle }

/-- The browser puts the new value in the message box and fires `input`. -/
def inputEvent (s : State) (value : String) : State :=
  onInput { s with messageInput := value }

/-- The callback of the typing idle timer. -/
def typingIdle (s : State) : State :=
  sendTypingStatus { s with isTyping := false } false

/-! ## Feed -/

/-- The node `displayMessage` builds before appending it. -/
def messageNode (loc : Locale) (username : Option String)
    (user text timestamp messageId : String) : Node :=
  let textDiv : Div := ⟨"text", text, ""⟩
  let timeDiv : Div := ⟨"timestamp", loc.formatTime timestamp, loc.formatFullDate timestamp⟩
  if some user = username then
    { classList := ["message", "self"], dataMessageId := messageId,
      children := [textDiv, timeDiv], contextmenu := true }
  else
    let userDiv : Div := ⟨"username", user, ""⟩
    { classList := ["message", "other"], dataMessageId := messageId,
      children := [userDiv, textDiv, timeDiv], contextmenu := false }

def displayMessage (loc : Locale) (s : State) (user text timestamp messageId : String)
    (isHistory : Bool) : State :=
  let msg := messageNode loc s.username user text timestamp messageId
  let s := { s with chatBox := s.chatBox ++ [msg] }
  if !isHistory then emit s (Effect.scroll s.chatBox.length) else s

/-- The function `loadMessages` up to its `await`: the request is issued. -/
def loadMessages (s : State) (channel : String) : State :=
  emit s (Effect.fetch (Request.getMessages channel))

/-- The function `loadMessages` after a successful fetch returning `messages`. -/
def loadMessagesResponse (loc : Locale) (s : State) (messages : List HistoryMessage) : State :=
  let s := { s with chatBox := [] }
  let s := messages.foldl
    (fun s msg => displayMessage loc s msg.username msg.message msg.timestamp msg.id true) s
  emit s (Effect.scroll s.chatBox.length)

/-! ## Channels -/

/-- The function `loadChannels` up to its `await`. -/
def loadChannels (s : State) : State :=
  emit s (Effect.fetch Request.getChannels)

/-- The function `loadChannels` after a successful fetch returning `channels`. -/
def loadChannelsResponse (s : State) (channels : List String) : State :=
  { s with channelsList :=
      channels.map (fun c => ⟨"# " ++ c, c, decide (c = s.currentChannel)⟩) }

def changeChannel (s : State) (channel : String) : State :=
  if channel = s.currentChannel then s
  else
    let s := { s with currentChannel := channel, currentChannelHeader := "# " ++ channel,
                      chatBox := [], typingUsers := [] }
    let s := updateTypingIndicator s
    let s := match openSocket s with
      | some i => emit s (Effect.send i (Frame.change_channel channel))
      | none => s
    let s := loadMessages s channel
    loadChannels s

/-! ## Sending a message -/

def sendMessage (s : State) : State :=
  if jsTrim s.messageInput = "" then s
  else
    match openSocket s with
    | some i =>
      let s := emit s (Effect.send i (Frame.message s.messageInput))
      let s := { s with messageInput := "" }
      let s := { s with isTyping := false }
      sendTypingStatus s false
    | none => s

/-! ## Transport -/

/-- A new socket is created in state `CONNECTING` and `ws` is pointed at it; the
four handlers installed on it are the same for every socket. -/
def connectWebSocket (s : State) : State :=
  { s with sockets := s.sockets ++ [ReadyState.CONNECTING], ws := some s.sockets.length }

/-- The handler `ws.onopen`. Its `ws.send` goes to the socket the variable `ws`
holds when the handler runs: on a socket still `CONNECTING` it throws and the
rest of the handler is skipped; on a closing or closed socket the frame is
discarded. -/
def onopen (s : State) : State :=
  match s.ws with
  | none => s
  | some i =>
    match s.sockets[i]? with
    | none => s
    | some ReadyState.CONNECTING => s
    | some r =>
      let s := if r = ReadyState.OPEN then
          emit s (Effect.send i (Frame.join s.username s.currentChannel))
        else s
      let s := { s with statusText := "Bağlı", statusClass := "status connected",
                        currentUserText := "👤 " ++ s.username.getD "null" }
      loadMessages s s.currentChannel

/-- The handler `ws.onclose`. -/
def onclose (s : State) : State :=
  let s := { s with statusText := "Bağlantı Kesildi", statusClass := "status disconnected" }
  setTimeout s TimerAction.connectWebSocket 3000

/-- The handler `ws.onerror`. -/
def onerror (s : State) : State :=
  { s with statusText := "Hata", statusClass := "status disconnected" }

/-! ## Login, register, logout -/

/-- The function `login` up to its `await`. -/
def login (s : State) : State :=
  let usernameInput := jsTrim s.loginUsername
  let password := s.loginPassword
  if usernameInput = "" ∨ password = "" then
    { s with loginError := "Lütfen tüm alanları doldurun" }
  else
    emit s (Effect.fetch (Request.postLogin usernameInput password))

/-- The function `login` from the response on. -/
def loginResponse (s : State) (r : AuthResponse) : State :=
  match r with
  | AuthResponse.rejected detail => { s with loginError := jsOr detail "Giriş başarısız" }
  | AuthResponse.ok name =>
    let s := { s with username := some name }
    let s := { s with localStorage := s.username }
    connectWebSocket (loadChannels (showChat s))
  | AuthResponse.networkError => { s with loginError := "Bağlantı hatası" }

/-- The function `register` up to its `await`. -/
def register (s : State) : State :=
  let usernameInput := jsTrim s.registerUsername
  let email := jsTrim s.registerEmail
  let password := s.registerPassword
  if usernameInput = "" ∨ email = "" ∨ password = "" then
    { s with registerError := "Lütfen tüm alanları doldurun" }
  else if jsLength password < 6 then
    { s with registerError := "Şifre en az 6 karakter olmalı" }
  else
    emit s (Effect.fetch (Request.postRegister usernameInput email password))

/-- The function `register` from the response on. -/
def registerResponse (s : State) (r : AuthResponse) : State :=
  match r with
  | AuthResponse.rejected detail => { s with registerError := jsOr detail "Kayıt başarısız" }
  | AuthResponse.ok name =>
    let s := { s with username := some name }
    let s := { s with localStorage := s.username }
    connectWebSocket (loadChannels (showChat s))
  | AuthResponse.networkError => { s with registerError := "Bağlantı hatası" }

/-- The method `close()` of a socket: an open or connecting socket starts closing. -/
def closeSocket (s : State) (i : Nat) : State :=
  match s.sockets[i]? with
  | some ReadyState.CONNECTING => { s with sockets := s.sockets.set i ReadyState.CLOSING }
  | some ReadyState.OPEN => { s with sockets := s.sockets.set i ReadyState.CLOSING }
  | _ => s

def logout (s : State) : State :=
  let s := match s.ws with
    | some i => closeSocket s i
    | none => s
  let s := { s with localStorage := none }
  let s := { s with username := none }
  showLogin s

/-! ## Page load -/

/-- The state when the script has run: `stored` is the persisted user name. -/
def init (stored : Option String) : State :=
  { ws := none, currentChannel := "genel", username := stored, typingTimeout := none,
    isTyping := false, typingUsers := [],
    loginScreen := "", registerScreen := "", chatScreen := "", chatBox := [],
    messageInput := "", statusText := "", statusClass := "", channelsList := [],
    currentChannelHeader := "", currentUserText := "", typingIndicatorText := "",
    typingIndicatorDisplay := "", loginUsername := "", loginPassword := "", loginError := "",
    registerUsername := "", registerEmail := "", registerPassword := "", registerError := "",
    localStorage := stored, sockets := [], timers := [], nextTimerId := 0, now := 0, log := [] }

/-- The test `if (username)`: null and the empty string are falsy. -/
def loggedIn (s : State) : Bool :=
  match s.username with
  | some u => u != ""
  | none => false

/-- The listener of `DOMContentLoaded`. -/
def onDOMContentLoaded (s : State) : State :=
  if loggedIn s then connectWebSocket (loadChannels (showChat s)) else showLogin s

/-! ## The event loop -/

/-- Run the callback of a timer. -/
def runTimer (s : State) (a : TimerAction) : State :=
  match a with
  | TimerAction.connectWebSocket => connectWebSocket s
  | TimerAction.typingIdle => typingIdle s

/-- A pending timer expires: it leaves the timer table and its callback runs, no
earlier than its due time. -/
def fireTimer (s : State) (t : Timer) : State :=
  runTimer { s with timers := s.timers.filter (fun u => u.id != t.id), now := max s.now t.due }
    t.action

/-- Insertion into a list of timers ordered by due time, then by handle. -/
def insertTimer (t : Timer) : List Timer → List Timer
  | [] => [t]
  | u :: us =>
    if t.due < u.due ∨ (t.due = u.due ∧ t.id ≤ u.id) then t :: u :: us
    else u :: insertTimer t us

def sortTimers (ts : List Timer) : List Timer :=
  ts.foldr insertTimer []

/-- Let `dt` ms pass with no outside event: the timers due by then expire in order
of due time, each at its due time. No modelled callback sets a timer, so the
timers that expire are among those pending at the start. -/
def advance (s : State) (dt : Nat) : State :=
  let deadline := s.now + dt
  let due := sortTimers (s.timers.filter (fun t => t.due ≤ deadline))
  let s := due.foldl (fun s t => if s.timers.any (fun u => u.id == t.id) then fireTimer s t else s) s
  { s with now := deadline }

/-- The browser reports socket `i` open. -/
def socketOpen (s : State) (i : Nat) : Option State :=
  if s.sockets[i]? = some ReadyState.CONNECTING then
    some (onopen { s with sockets := s.sockets.set i ReadyState.OPEN })
  else none

/-- The browser reports socket `i` closed, whatever the cause. -/
def socketClose (s : State) (i : Nat) : Option State :=
  match s.sockets[i]? with
  | some r =>
    if r = ReadyState.CLOSED then none
    else some (onclose { s with sockets := s.sockets.set i ReadyState.CLOSED })
  | none => none

/-- The browser reports an error on socket `i`. -/
def socketError (s : State) (i : Nat) : Option State :=
  match s.sockets[i]? with
  | some r => if r = ReadyState.CLOSED then none else some (onerror s)
  | none => none

/-- The reconnect timer with handle `h` expires. -/
def reconnectTimer (s : State) (h : Nat) : Option State :=
  match s.timers.find? (fun t => t.id == h) with
  | some t => if t.action = TimerAction.connectWebSocket then some (fireTimer s t) else none
  | none => none

/-- The events of the connection life cycle. -/
inductive Event
  | loginSuccess (name : String)
  | registerSuccess (name : String)
  | logout
  | socketOpen (i : Nat)
  | socketClose (i : Nat)
  | socketError (i : Nat)
  | reconnectTimer (h : Nat)
  deriving DecidableEq

/-- One event; `none` when the event cannot happen in this state. -/
def step (s : State) : Event → Option State
  | Event.loginSuccess name => some (loginResponse s (AuthResponse.ok name))
  | Event.registerSuccess name => some (registerResponse s (AuthResponse.ok name))
  | Event.logout => some (logout s)
  | Event.socketOpen i => socketOpen s i
  | Event.socketClose i => socketClose s i
  | Event.socketError i => socketError s i
  | Event.reconnectTimer h => reconnectTimer s h

/-- A sequence of events from state `s`. -/
def run (s : State) : List Event → Option State
  | [] => some s
  | e :: es =>
    match step s e with
    | some s1 => run s1 es
    | none => none

/-- Sockets created and not yet closed. -/
def liveSockets (s : State) : Nat :=
  s.sockets.countP (fun r => r != ReadyState.CLOSED)

/-- Sockets in state `OPEN`. -/
def openSockets (s : State) : Nat :=
  s.sockets.countP (fun r => r == ReadyState.OPEN)

/-- Pending calls of `connectWebSocket`. -/
def pendingReconnects (s : State) : Nat :=
  s.timers.countP (fun t => t.action == TimerAction.connectWebSocket)

/-- Whether an event calls `connectWebSocket` directly. -/
def startsConnection : Event → Bool
  | Event.loginSuccess _ => true
  | Event.registerSuccess _ => true
  | _ => false

/-- The calls of `connectWebSocket` made by the page load and by the successful
logins and registrations of a sequence of events. -/
def connectionStarts (stored : Option String) (events : List Event) : Nat :=
  (if loggedIn (init stored) then 1 else 0) + events.countP startsConnection

/-- Timer handles are distinct and below the next handle to be given out. -/
def TimersWellFormed (s : State) : Prop :=
  (s.timers.map (fun t => t.id)).Nodup ∧ ∀ t ∈ s.timers, t.id < s.nextTimerId

/-! ## Observations on the feed -/

/-- The nodes of a feed tagged with a message id: what a lookup by
`[data-message-id="id"]` ranges over. -/
def taggedWith (feed : List Node) (messageId : String) : List Node :=
  feed.filter (fun n => n.dataMessageId == messageId)

/-- The text of a message node: the content of its child of class `text`. -/
def nodeText (n : Node) : Option String :=
  (n.children.find? (fun d => d.className == "text")).map (fun d => d.textContent)

/-- The history messages rendered one after the other into state `s`. -/
def renderHistory (loc : Locale) (s : State) (messages : List HistoryMessage) : State :=
  messages.foldl
    (fun s msg => displayMessage loc s msg.username msg.message msg.timestamp msg.id true) s

/-- A locale that shows a timestamp as it was received. -/
def rawLocale : Locale :=
  ⟨fun t => t, fun t => t⟩

/-! ## Typing traces -/

/-- A sequence of `input` events on the message box, each given by the time since
the previous event (ms) and the value of the box after it. -/
def runInputs (s : State) : List (Nat × String) → State
  | [] => s
  | (gap, value) :: rest => runInputs (inputEvent (advance s gap) value) rest

/-- The input events, then two seconds without any event. -/
def typingBurst (s : State) (events : List (Nat × String)) : State :=
  advance (runInputs s events) 2000

/-- The time of the first event that leaves the message box non-empty, for events
starting after time `t0`. -/
def firstNonEmpty (t0 : Nat) : List (Nat × String) → Option Nat
  | [] => none
  | (gap, value) :: rest =>
    if value ≠ "" then some (t0 + gap) else firstNonEmpty (t0 + gap) rest

/-- The time of the last event, for events starting after time `t0`. -/
def lastTime (t0 : Nat) : List (Nat × String) → Nat
  | [] => t0
  | (gap, _) :: rest => lastTime (t0 + gap) rest

/-- The typing frames with status `status` among the frames sent. -/
def typingFrames (log : List (Nat × Effect)) (status : Bool) : List (Nat × Nat × Frame) :=
  (sentFrames log).filter (fun p => p.2.2 == Frame.typing status)

/-- The idle timer is the only pending timer, due two seconds from now, and
`typingTimeout` holds its handle. -/
def Armed (s : State) : Prop :=
  ∃ h, s.timers = [⟨h, s.now + 2000, TimerAction.typingIdle⟩] ∧ s.typingTimeout = some h

/-! ## Proof helpers and example states -/

/-- The state `changeChannel` reaches before it notifies the transport. -/
def channelReset (s : State) (channel : String) : State :=
  updateTypingIndicator
    { s with currentChannel := channel, currentChannelHeader := "# " ++ channel,
             chatBox := [], typingUsers := [] }

/-- User `ali` in channel `genel` with socket 0 open. -/
def exampleOpen : State :=
  { init (some "ali") with ws := some 0, sockets := [ReadyState.OPEN] }

/-- As `exampleOpen`, with `veli` shown as typing. -/
def exampleTyping : State :=
  { exampleOpen with typingUsers := ["veli"], typingIndicatorText := "veli yazıyor...",
                     typingIndicatorDisplay := "block" }

/-- User `ali` whose first socket is still connecting, with a message typed. -/
def exampleConnecting : State :=
  connectWebSocket { init (some "ali") with messageInput := "selam" }

/-- The user typed `a` into the box of `exampleOpen` and then paused for two
seconds: the box holds a draft and the client is idle again. -/
def exampleDraft : State :=
  typingBurst exampleOpen [(0, "a")]

/-- A login, the socket opening, a close and the reconnect that follows. -/
def exampleReconnect : List Event :=
  [Event.loginSuccess "ali", Event.socketOpen 0, Event.socketClose 0,
   Event.reconnectTimer 0, Event.socketOpen 1]

/-- The state the events of `exampleReconnect` lead to from a page load with no
stored user name. -/
def exampleReconnected : State :=
  (run (onDOMContentLoaded (init none)) exampleReconnect).getD (init none)

/-- A login, a logout and a second login made before the reconnect timer set by
the close of the first socket expires. -/
def exampleRelogin : List Event :=
  [Event.loginSuccess "ali", Event.socketOpen 0, Event.logout, Event.socketClose 0,
   Event.loginSuccess "ali", Event.socketOpen 1, Event.reconnectTimer 0, Event.socketOpen 2]

def exampleBlankLogin : State :=
  { init none with loginUsername := "  ", loginPassword := "gizli" }

def exampleLogin : State :=
  { init none with loginUsername := " ali ", loginPassword := "gizli" }

def exampleShortPassword : State :=
  { init none with registerUsername := "ali", registerEmail := "a@b.c",
                   registerPassword := "12345" }

def exampleRegister : State :=
  { init none with registerUsername := "ali", registerEmail := "a@b.c",
                   registerPassword := "123456" }

/-! ## Theorems -/

/-! ## Typing indicator text -/

/-- C1: the indicator is hidden for the empty typing set, shows the name and the
singular phrase for one name, and for two or more names shows the first
`min 3 |S|` names joined by a comma and a blank, then the plural phrase. -/
theorem updateTypingIndicator_text (s : State) (n a b : String) (rest : List String) :
    (updateTypingIndicator { s with typingUsers := [] }).typingIndicatorDisplay = "none" ∧
    ((updateTypingIndicator { s with typingUsers := [n] }).typingIndicatorDisplay = "block" ∧
      (updateTypingIndicator { s with typingUsers := [n] }).typingIndicatorText
        = n ++ " yazıyor...") ∧
    ((updateTypingIndicator { s with typingUsers := a :: b :: rest }).typingIndicatorDisplay
        = "block" ∧
      (updateTypingIndicator { s with typingUsers := a :: b :: rest }).typingIndicatorText
        = ", ".intercalate ((a :: b :: rest).take (min 3 (a :: b :: rest).length))
            ++ " yazıyorlar...") := by
  refine ⟨by simp [updateTypingIndicator], ?_, ?_⟩
  · simp [updateTypingIndicator, String.intercalate, String.intercalate.go]
  · have h3 : min 3 (rest.length + 1 + 1) = 3 ∨ rest = [] := by
      cases rest with
      | nil => right; rfl
      | cons c r => left; simp
    rcases h3 with h3 | h3
    · simp [updateTypingIndicator, h3]
    · subst h3
      simp [updateTypingIndicator]

/-! ## Reconnect policy -/

theorem pendingReconnects_onclose (s : State) :
    pendingReconnects (onclose s) = pendingReconnects s + 1 := by
  simp [pendingReconnects, onclose, setTimeout, List.countP_append]

theorem pendingReconnects_iterate_onclose (k : Nat) (s : State) :
    pendingReconnects (onclose^[k] s) = pendingReconnects s + k := by
  induction k generalizing s with
  | zero => simp
  | succ k ih =>
    rw [Function.iterate_succ_apply, ih, pendingReconnects_onclose]
    omega

/-- C3: in every state the close handler shows the disconnected status and adds
exactly one timer, due 3000 ms later, whose callback is `connectWebSocket` (and
whose expiry creates one socket); the error handler sets the status and leaves
the timers alone; `k` close events add `k` pending connection attempts. -/
theorem reconnect_policy (s : State) (k : Nat) :
    (onclose s).statusText = "Bağlantı Kesildi" ∧
    (onclose s).statusClass = "status disconnected" ∧
    (onclose s).timers
      = s.timers ++ [⟨s.nextTimerId, s.now + 3000, TimerAction.connectWebSocket⟩] ∧
    (onclose s).sockets = s.sockets ∧
    (fireTimer (onclose s) ⟨s.nextTimerId, s.now + 3000, TimerAction.connectWebSocket⟩).sockets
      = s.sockets ++ [ReadyState.CONNECTING] ∧
    (fireTimer (onclose s) ⟨s.nextTimerId, s.now + 3000, TimerAction.connectWebSocket⟩).now
      = s.now + 3000 ∧
    (onerror s).statusText = "Hata" ∧
    (onerror s).statusClass = "status disconnected" ∧
    (onerror s).timers = s.timers ∧
    (onerror s).sockets = s.sockets ∧
    pendingReconnects (onclose^[k] s) = pendingReconnects s + k := by
  refine ⟨rfl, rfl, rfl, rfl, rfl, ?_, rfl, rfl, rfl, rfl, pendingReconnects_iterate_onclose k s⟩
  simp [fireTimer, runTimer, connectWebSocket, onclose, setTimeout]

/-! ## Sends on a socket that is not open -/

theorem openSocket_eq_none (s : State)
    (h : ∀ i, s.ws = some i → s.sockets[i]? ≠ some ReadyState.OPEN) : openSocket s = none := by
  unfold openSocket
  cases hw : s.ws with
  | none => rfl
  | some i => simp [h i hw]

theorem openSocket_congr (s1 s2 : State) (hw : s1.ws = s2.ws) (hs : s1.sockets = s2.sockets) :
    openSocket s1 = openSocket s2 := by
  unfold openSocket
  rw [hw, hs]

@[simp]
theorem updateTypingIndicator_ws (s : State) :
    (updateTypingIndicator s).ws = s.ws := by
  unfold updateTypingIndicator; split <;> rfl

@[simp]
theorem updateTypingIndicator_sockets (s : State) :
    (updateTypingIndicator s).sockets = s.sockets := by
  unfold updateTypingIndicator; split <;> rfl

@[simp]
theorem updateTypingIndicator_timers (s : State) :
    (updateTypingIndicator s).timers = s.timers := by
  unfold updateTypingIndicator; split <;> rfl

@[simp]
theorem updateTypingIndicator_log (s : State) :
    (updateTypingIndicator s).log = s.log := by
  unfold updateTypingIndicator; split <;> rfl

@[simp]
theorem updateTypingIndicator_now (s : State) :
    (updateTypingIndicator s).now = s.now := by
  unfold updateTypingIndicator; split <;> rfl

theorem openSocket_updateTypingIndicator (s : State) :
    openSocket (updateTypingIndicator s) = openSocket s :=
  openSocket_congr _ _ (by simp) (by simp)

theorem changeChannel_of_ne (s : State) (channel : String) (hc : channel ≠ s.currentChannel) :
    changeChannel s channel =
      loadChannels (loadMessages
        (match openSocket s with
          | some i => emit (channelReset s channel) (Effect.send i (Frame.change_channel channel))
          | none => channelReset s channel) channel) := by
  have h1 : openSocket (channelReset s channel) = openSocket s :=
    (openSocket_updateTypingIndicator _).trans (openSocket_congr _ s rfl rfl)
  unfold changeChannel
  rw [if_neg hc]
  simp only []
  rw [← h1]
  rfl

@[simp]
theorem channelReset_log (s : State) (c : String) : (channelReset s c).log = s.log := by
  simp [channelReset]

@[simp]
theorem channelReset_now (s : State) (c : String) : (channelReset s c).now = s.now := by
  simp [channelReset]

@[simp]
theorem channelReset_timers (s : State) (c : String) :
    (channelReset s c).timers = s.timers := by
  simp [channelReset]

@[simp]
theorem channelReset_sockets (s : State) (c : String) :
    (channelReset s c).sockets = s.sockets := by
  simp [channelReset]

@[simp]
theorem channelReset_ws (s : State) (c : String) : (channelReset s c).ws = s.ws := by
  simp [channelReset]

/-- C5: when `ws` is unset or its socket is not `OPEN`, `sendTypingStatus` and
`sendMessage` leave the whole state as it is, and `changeChannel` writes no
frame, sets no timer and leaves the sockets as they are: nothing is sent and
nothing is kept for later sending. -/
theorem sends_dropped_when_not_open (s : State) (status : Bool) (channel : String)
    (h : ∀ i, s.ws = some i → s.sockets[i]? ≠ some ReadyState.OPEN) :
    sendTypingStatus s status = s ∧
    sendMessage s = s ∧
    sentFrames (changeChannel s channel).log = sentFrames s.log ∧
    (changeChannel s channel).timers = s.timers ∧
    (changeChannel s channel).sockets = s.sockets ∧
    (changeChannel s channel).ws = s.ws := by
  have ho := openSocket_eq_none s h
  refine ⟨by simp [sendTypingStatus, ho], ?_, ?_, ?_, ?_, ?_⟩
  · unfold sendMessage
    split
    · rfl
    · simp [ho]
  all_goals
    by_cases hc : channel = s.currentChannel
    · simp [changeChannel, hc]
    · rw [changeChannel_of_ne s channel hc, ho]
      simp [loadMessages, loadChannels, emit, sentFrames, List.filterMap_append]

/-- The socket is still connecting: a typing status, a message and a channel
change send nothing. -/
theorem sends_dropped_when_not_open_witness :
    sendTypingStatus exampleConnecting true = exampleConnecting ∧
    sendMessage exampleConnecting = exampleConnecting ∧
    sentFrames (changeChannel exampleConnecting "oyun").log = sentFrames exampleConnecting.log ∧
    (changeChannel exampleConnecting "oyun").timers = exampleConnecting.timers ∧
    (changeChannel exampleConnecting "oyun").sockets = exampleConnecting.sockets ∧
    (changeChannel exampleConnecting "oyun").ws = exampleConnecting.ws :=
  sends_dropped_when_not_open exampleConnecting true "oyun" (by decide)

/-! ## Channel switch -/

/-- C6: `changeChannel c` with `c` the current channel leaves the whole state as
it is; otherwise the current channel is `c`, the feed and the typing set are
empty, the indicator is hidden, the frames written are those written before
followed by one `change_channel` frame for `c` when the socket was open and by
nothing when it was not, and `ws` and the sockets are as before. -/
theorem changeChannel_spec (s : State) (c : String) :
    (c = s.currentChannel → changeChannel s c = s) ∧
    (c ≠ s.currentChannel →
      (changeChannel s c).currentChannel = c ∧
      (changeChannel s c).chatBox = [] ∧
      (changeChannel s c).typingUsers = [] ∧
      (changeChannel s c).typingIndicatorDisplay = "none" ∧
      sentFrames (changeChannel s c).log
        = sentFrames s.log ++
          (match openSocket s with
            | some i => [(s.now, i, Frame.change_channel c)]
            | none => []) ∧
      (changeChannel s c).ws = s.ws ∧
      (changeChannel s c).sockets = s.sockets) := by
  constructor
  · intro hc
    simp [changeChannel, hc]
  · intro hc
    rw [changeChannel_of_ne s c hc]
    cases ho : openSocket s <;>
      simp [loadMessages, loadChannels, emit, sentFrames, List.filterMap_append, channelReset,
        updateTypingIndicator]

/-- A click on the channel that is already current, and a switch from the default
channel with the socket open. -/
theorem changeChannel_spec_witness :
    changeChannel exampleOpen "genel" = exampleOpen ∧
    (changeChannel exampleTyping "oyun").typingIndicatorDisplay = "none" ∧
    sentFrames (changeChannel exampleTyping "oyun").log
      = sentFrames exampleTyping.log ++
          (match openSocket exampleTyping with
            | some i => [(exampleTyping.now, i, Frame.change_channel "oyun")]
            | none => []) :=
  ⟨(changeChannel_spec exampleOpen "genel").1 (by decide),
   ((changeChannel_spec exampleTyping "oyun").2 (by decide)).2.2.2.1,
   ((changeChannel_spec exampleTyping "oyun").2 (by decide)).2.2.2.2.1⟩

/-! ## Local validation -/

/-- C9: `login` issues its request exactly when the trimmed user name and the
password are non-empty; `register` issues its request exactly when the trimmed
user name, the trimmed e-mail and the password are non-empty and the password
has length at least 6; a failed validation sets the inline error text, issues
nothing and leaves the session user name and the persisted storage alone. -/
theorem validation_spec (s : State) :
    ((jsTrim s.loginUsername ≠ "" ∧ s.loginPassword ≠ "") →
      login s = emit s (Effect.fetch
        (Request.postLogin (jsTrim s.loginUsername) s.loginPassword))) ∧
    (¬ (jsTrim s.loginUsername ≠ "" ∧ s.loginPassword ≠ "") →
      (login s).log = s.log ∧ (login s).loginError = "Lütfen tüm alanları doldurun" ∧
      (login s).username = s.username ∧ (login s).localStorage = s.localStorage) ∧
    ((jsTrim s.registerUsername ≠ "" ∧ jsTrim s.registerEmail ≠ "" ∧
        s.registerPassword ≠ "" ∧ 6 ≤ jsLength s.registerPassword) →
      register s = emit s (Effect.fetch
        (Request.postRegister (jsTrim s.registerUsername) (jsTrim s.registerEmail)
          s.registerPassword))) ∧
    (¬ (jsTrim s.registerUsername ≠ "" ∧ jsTrim s.registerEmail ≠ "" ∧
        s.registerPassword ≠ "" ∧ 6 ≤ jsLength s.registerPassword) →
      (register s).log = s.log ∧
      ((register s).registerError = "Lütfen tüm alanları doldurun" ∨
        (register s).registerError = "Şifre en az 6 karakter olmalı") ∧
      (register s).username = s.username ∧ (register s).localStorage = s.localStorage) := by
  refine ⟨?_, ?_, ?_, ?_⟩
  · rintro ⟨h1, h2⟩
    simp [login, h1, h2]
  · intro h
    have h' : jsTrim s.loginUsername = "" ∨ s.loginPassword = "" := by
      by_contra hn
      exact h ⟨fun e => hn (Or.inl e), fun e => hn (Or.inr e)⟩
    simp [login, h']
  · rintro ⟨h1, h2, h3, h4⟩
    have h4' : ¬ jsLength s.registerPassword < 6 := by omega
    simp [register, h1, h2, h3, h4']
  · intro h
    unfold register
    simp only []
    split
    · simp
    · rename_i hne
      split
      · simp
      · rename_i hlen
        exfalso
        apply h
        refine ⟨fun e => hne (Or.inl e), fun e => hne (Or.inr (Or.inl e)),
          fun e => hne (Or.inr (Or.inr e)), by omega⟩

/-- A login with a blank user name, a login with both fields, a registration with
a password of five characters and a registration with one of six. -/
theorem validation_spec_witness :
    (login exampleBlankLogin).log = exampleBlankLogin.log ∧
    login exampleLogin = emit exampleLogin (Effect.fetch (Request.postLogin "ali" "gizli")) ∧
    (register exampleShortPassword).log = exampleShortPassword.log ∧
    register exampleRegister
      = emit exampleRegister (Effect.fetch (Request.postRegister "ali" "a@b.c" "123456")) :=
  ⟨((validation_spec exampleBlankLogin).2.1 (by decide)).1,
   (validation_spec exampleLogin).1 (by decide),
   ((validation_spec exampleShortPassword).2.2.2 (by decide)).1,
   (validation_spec exampleRegister).2.2.1 (by decide)⟩

/-! ## Feed -/

theorem messageNode_dataMessageId (loc : Locale) (u : Option String)
    (user text timestamp messageId : String) :
    (messageNode loc u user text timestamp messageId).dataMessageId = messageId := by
  unfold messageNode
  split <;> rfl

theorem messageNode_text (loc : Locale) (u : Option String)
    (user text timestamp messageId : String) :
    nodeText (messageNode loc u user text timestamp messageId) = some text := by
  unfold messageNode
  split <;> simp [nodeText, List.find?]

theorem messageNode_classList (loc : Locale) (u : Option String)
    (user text timestamp messageId : String) :
    (messageNode loc u user text timestamp messageId).classList
      = ["message", if some user = u then "self" else "other"] := by
  unfold messageNode
  split <;> rfl

theorem displayMessage_chatBox (loc : Locale) (s : State)
    (user text timestamp messageId : String) (isHistory : Bool) :
    (displayMessage loc s user text timestamp messageId isHistory).chatBox
      = s.chatBox ++ [messageNode loc s.username user text timestamp messageId] := by
  unfold displayMessage
  cases isHistory <;> simp [emit]

/-- C7, as the code has it: `displayMessage` appends one node to the feed, tagged
with the id, with the given text and with class `self` when the author is the
session user and `other` when not; the feed then holds one more node tagged
with the id than before, and exactly that one when it held none before. -/
theorem displayMessage_spec (loc : Locale) (s : State)
    (user text timestamp messageId : String) (isHistory : Bool) :
    (displayMessage loc s user text timestamp messageId isHistory).chatBox
      = s.chatBox ++ [messageNode loc s.username user text timestamp messageId] ∧
    (messageNode loc s.username user text timestamp messageId).dataMessageId = messageId ∧
    nodeText (messageNode loc s.username user text timestamp messageId) = some text ∧
    (messageNode loc s.username user text timestamp messageId).classList
      = ["message", if some user = s.username then "self" else "other"] ∧
    (taggedWith (displayMessage loc s user text timestamp messageId isHistory).chatBox
        messageId).length = (taggedWith s.chatBox messageId).length + 1 ∧
    (taggedWith s.chatBox messageId = [] →
      taggedWith (displayMessage loc s user text timestamp messageId isHistory).chatBox
        messageId = [messageNode loc s.username user text timestamp messageId]) := by
  refine ⟨displayMessage_chatBox loc s user text timestamp messageId isHistory,
    messageNode_dataMessageId _ _ _ _ _ _, messageNode_text _ _ _ _ _ _,
    messageNode_classList _ _ _ _ _ _, ?_, ?_⟩
  · simp [displayMessage_chatBox, taggedWith, List.filter_append, messageNode_dataMessageId]
  · intro h
    simp [displayMessage_chatBox, taggedWith, List.filter_append, messageNode_dataMessageId]
    simpa [taggedWith] using h

/-- A first message from another user shown in an empty feed. -/
theorem displayMessage_spec_witness :
    taggedWith exampleOpen.chatBox "7" = [] ∧
    taggedWith (displayMessage rawLocale exampleOpen "veli" "selam" "12:00" "7" false).chatBox "7"
      = [messageNode rawLocale exampleOpen.username "veli" "selam" "12:00" "7"] :=
  ⟨by decide,
   (displayMessage_spec rawLocale exampleOpen "veli" "selam" "12:00" "7" false).2.2.2.2.2
     (by decide)⟩

/-- C7 fails as stated: the same message displayed twice leaves two nodes tagged
with its id in the feed. -/
theorem duplicate_id_two_nodes :
    (taggedWith
      (displayMessage rawLocale
        (displayMessage rawLocale exampleOpen "veli" "selam" "12:00" "7" false)
        "veli" "selam" "12:00" "7" false).chatBox "7").length = 2 := by
  decide

/-! ## History load -/

theorem renderHistory_fields (loc : Locale) (messages : List HistoryMessage) (s : State) :
    (renderHistory loc s messages).chatBox
      = s.chatBox ++ messages.map
          (fun m => messageNode loc s.username m.username m.message m.timestamp m.id) ∧
    (renderHistory loc s messages).log = s.log ∧
    (renderHistory loc s messages).now = s.now := by
  induction messages generalizing s with
  | nil => simp [renderHistory]
  | cons m ms ih =>
    have h := ih (displayMessage loc s m.username m.message m.timestamp m.id true)
    simp only [renderHistory, List.foldl_cons] at h ⊢
    rw [h.1, h.2.1, h.2.2]
    simp [displayMessage]

/-- C8: after a successful history fetch the feed is the list of the renderings
of the returned messages, in the returned order and with no earlier node left;
the only effect recorded is one scroll to the bottom, made when all `n` nodes
are in the feed. -/
theorem loadMessagesResponse_spec (loc : Locale) (s : State) (messages : List HistoryMessage) :
    (loadMessagesResponse loc s messages).chatBox
      = messages.map
          (fun m => messageNode loc s.username m.username m.message m.timestamp m.id) ∧
    (loadMessagesResponse loc s messages).chatBox.length = messages.length ∧
    (loadMessagesResponse loc s messages).chatBox.map (fun n => n.dataMessageId)
      = messages.map (fun m => m.id) ∧
    (loadMessagesResponse loc s messages).chatBox.map nodeText
      = messages.map (fun m => some m.message) ∧
    (loadMessagesResponse loc s messages).chatBox.map (fun n => n.classList)
      = messages.map
          (fun m => ["message", if some m.username = s.username then "self" else "other"]) ∧
    (loadMessagesResponse loc s messages).log
      = s.log ++ [(s.now, Effect.scroll messages.length)] := by
  have h := renderHistory_fields loc messages { s with chatBox := [] }
  have hb : (loadMessagesResponse loc s messages).chatBox
      = messages.map
          (fun m => messageNode loc s.username m.username m.message m.timestamp m.id) := by
    have := h.1
    simpa [loadMessagesResponse, renderHistory, emit] using this
  refine ⟨hb, ?_, ?_, ?_, ?_, ?_⟩
  · rw [hb, List.length_map]
  · rw [hb, List.map_map]
    exact List.map_congr_left (fun m _ => messageNode_dataMessageId _ _ _ _ _ _)
  · rw [hb, List.map_map]
    exact List.map_congr_left (fun m _ => messageNode_text _ _ _ _ _ _)
  · rw [hb, List.map_map]
    exact List.map_congr_left (fun m _ => messageNode_classList _ _ _ _ _ _)
  · have h1 := h.1
    have h2 := h.2.1
    have h3 := h.2.2
    simp only [renderHistory] at h1 h2 h3
    simp only [loadMessagesResponse, emit]
    rw [h1, h2, h3]
    simp

/-! ## Local typing debounce -/

theorem jsLength_pos_iff (v : String) : jsLength v > 0 ↔ v ≠ "" := by
  obtain ⟨data⟩ := v
  cases data with
  | nil => simp [jsLength]
  | cons c cs =>
    have hne : (String.mk (c :: cs)) ≠ "" := by
      intro h
      have := congrArg String.data h
      simp at this
    simp only [jsLength, List.map_cons, List.sum_cons, gt_iff_lt, ne_eq, hne, not_false_eq_true,
      iff_true]
    split <;> omega

theorem advance_idle (s : State) (dt : Nat)
    (h : ∀ t ∈ s.timers, s.now + dt < t.due) : advance s dt = { s with now := s.now + dt } := by
  have hf : s.timers.filter (fun t => decide (t.due ≤ s.now + dt)) = [] := by
    rw [List.filter_eq_nil_iff]
    intro t ht
    have := h t ht
    simp
    omega
  simp [advance, hf, sortTimers]

/-- One input event after a quiet gap, from a state whose pending timers all
carry the handle held in `typingTimeout`. -/
theorem inputEvent_after_gap (s : State) (i gap : Nat) (v : String)
    (hws : s.ws = some i) (hopen : s.sockets[i]? = some ReadyState.OPEN)
    (hq : ∀ t ∈ s.timers, s.now + gap < t.due ∧ s.typingTimeout = some t.id) :
    (inputEvent (advance s gap) v).ws = some i ∧
    (inputEvent (advance s gap) v).sockets = s.sockets ∧
    (inputEvent (advance s gap) v).now = s.now + gap ∧
    (inputEvent (advance s gap) v).timers
      = [⟨s.nextTimerId, s.now + gap + 2000, TimerAction.typingIdle⟩] ∧
    (inputEvent (advance s gap) v).typingTimeout = some s.nextTimerId ∧
    (inputEvent (advance s gap) v).isTyping = (s.isTyping || decide (v ≠ "")) ∧
    (inputEvent (advance s gap) v).log
      = s.log ++ (if s.isTyping = false ∧ v ≠ ""
          then [(s.now + gap, Effect.send i (Frame.typing true))] else []) := by
  rw [advance_idle s gap (fun t ht => (hq t ht).1)]
  have hclear : ∀ h, s.typingTimeout = some h → s.timers.filter (fun t => t.id != h) = [] := by
    intro h hh
    rw [List.filter_eq_nil_iff]
    intro t ht
    have := (hq t ht).2
    rw [hh] at this
    simp at this
    simp [this]
  have hos : ∀ (b : Bool) (m : String), openSocket
      { s with now := s.now + gap, messageInput := m, isTyping := b } = some i := by
    intro b m
    simp [openSocket, hws, hopen]
  by_cases hv : v = ""
  · subst hv
    cases hT : s.typingTimeout with
    | none =>
      have ht : s.timers = [] := by
        cases hts : s.timers with
        | nil => rfl
        | cons t ts =>
          have := (hq t (by simp [hts])).2
          simp [hT] at this
      simp [inputEvent, onInput, clearTimeout, setTimeout, hT, ht, hws, jsLength]
    | some h =>
      simp [inputEvent, onInput, clearTimeout, setTimeout, hT, hclear h hT, hws, jsLength]
  · have hpos : jsLength v > 0 := (jsLength_pos_iff v).2 hv
    cases hI : s.isTyping with
    | true =>
      cases hT : s.typingTimeout with
      | none =>
        have ht : s.timers = [] := by
          cases hts : s.timers with
          | nil => rfl
          | cons t ts =>
            have := (hq t (by simp [hts])).2
            simp [hT] at this
        simp [inputEvent, onInput, clearTimeout, setTimeout, hT, ht, hws, hI, hv]
      | some h =>
        simp [inputEvent, onInput, clearTimeout, setTimeout, hT, hclear h hT, hws, hI, hv]
    | false =>
      cases hT : s.typingTimeout with
      | none =>
        have ht : s.timers = [] := by
          cases hts : s.timers with
          | nil => rfl
          | cons t ts =>
            have := (hq t (by simp [hts])).2
            simp [hT] at this
        simp [inputEvent, onInput, clearTimeout, setTimeout, hT, ht, hws, hI, hv, hpos,
          sendTypingStatus, openSocket, hopen, emit]
      | some h =>
        simp [inputEvent, onInput, clearTimeout, setTimeout, hT, hclear h hT, hws, hI, hv, hpos,
          sendTypingStatus, openSocket, hopen, emit]

theorem runInputs_armed (i : Nat) (events : List (Nat × String)) :
    ∀ s : State, s.ws = some i → s.sockets[i]? = some ReadyState.OPEN → Armed s →
    (∀ e ∈ events, e.1 < 2000) →
    (runInputs s events).ws = some i ∧
    (runInputs s events).sockets = s.sockets ∧
    (runInputs s events).now = lastTime s.now events ∧
    Armed (runInputs s events) ∧
    (runInputs s events).log
      = s.log ++ (if s.isTyping = false then
          (match firstNonEmpty s.now events with
            | some t => [(t, Effect.send i (Frame.typing true))]
            | none => [])
          else []) := by
  induction events with
  | nil =>
    intro s hws _ harmed _
    refine ⟨hws, rfl, rfl, harmed, ?_⟩
    cases s.isTyping <;> simp [firstNonEmpty, runInputs]
  | cons e rest ih =>
    obtain ⟨g, v⟩ := e
    intro s hws hopen harmed hgap
    obtain ⟨h, hts, hto⟩ := harmed
    have hg : g < 2000 := hgap (g, v) (by simp)
    have hq : ∀ t ∈ s.timers, s.now + g < t.due ∧ s.typingTimeout = some t.id := by
      intro t ht
      rw [hts] at ht
      simp at ht
      subst ht
      exact ⟨by simp; omega, hto⟩
    obtain ⟨h1, h2, h3, h4, h5, h6, h7⟩ := inputEvent_after_gap s i g v hws hopen hq
    have harmed1 : Armed (inputEvent (advance s g) v) := ⟨s.nextTimerId, by rw [h4, h3], h5⟩
    have hopen1 : (inputEvent (advance s g) v).sockets[i]? = some ReadyState.OPEN := by
      rw [h2]; exact hopen
    obtain ⟨k1, k2, k3, k4, k5⟩ :=
      ih (inputEvent (advance s g) v) h1 hopen1 harmed1
        (fun e he => hgap e (List.mem_cons_of_mem _ he))
    refine ⟨k1, k2.trans h2, ?_, k4, ?_⟩
    · rw [runInputs, k3, h3, lastTime]
    · rw [runInputs, k5, h7, h6, h3]
      by_cases hv : v = ""
      · cases hI : s.isTyping <;> simp [hv, firstNonEmpty]
      · cases hI : s.isTyping <;> simp [hv, firstNonEmpty]

theorem advance_armed (s : State) (i : Nat) (hws : s.ws = some i)
    (hopen : s.sockets[i]? = some ReadyState.OPEN) (harmed : Armed s) :
    (advance s 2000).log = s.log ++ [(s.now + 2000, Effect.send i (Frame.typing false))] := by
  obtain ⟨h, hts, _⟩ := harmed
  simp [advance, hts, sortTimers, insertTimer, fireTimer, runTimer, typingIdle, sendTypingStatus,
    openSocket, hws, hopen, emit]

/-- C2, as the code has it: from an idle state with the socket open, a burst of
one or more input events, each less than two seconds after the one before,
followed by two quiet seconds, writes one `typing:true` frame at the first
event that leaves the message box non-empty (none when every event leaves it
empty), then one `typing:false` frame two seconds after the last event, and
nothing else. -/
theorem typing_debounce (s : State) (i gap : Nat) (value : String)
    (rest : List (Nat × String))
    (hws : s.ws = some i) (hopen : s.sockets[i]? = some ReadyState.OPEN)
    (hidle : s.isTyping = false) (hnone : s.timers = [])
    (hgap : ∀ e ∈ rest, e.1 < 2000) :
    (typingBurst s ((gap, value) :: rest)).log
      = s.log ++
        (match firstNonEmpty s.now ((gap, value) :: rest) with
          | some t => [(t, Effect.send i (Frame.typing true))]
          | none => []) ++
        [(lastTime s.now ((gap, value) :: rest) + 2000, Effect.send i (Frame.typing false))] := by
  have hq : ∀ t ∈ s.timers, s.now + gap < t.due ∧ s.typingTimeout = some t.id := by
    intro t ht
    rw [hnone] at ht
    simp at ht
  obtain ⟨h1, h2, h3, h4, h5, h6, h7⟩ := inputEvent_after_gap s i gap value hws hopen hq
  have harmed1 : Armed (inputEvent (advance s gap) value) :=
    ⟨s.nextTimerId, by rw [h4, h3], h5⟩
  have hopen1 : (inputEvent (advance s gap) value).sockets[i]? = some ReadyState.OPEN := by
    rw [h2]; exact hopen
  obtain ⟨k1, k2, k3, k4, k5⟩ :=
    runInputs_armed i rest (inputEvent (advance s gap) value) h1 hopen1 harmed1 hgap
  have hopen2 : (runInputs (inputEvent (advance s gap) value) rest).sockets[i]?
      = some ReadyState.OPEN := by
    rw [k2]; exact hopen1
  have hfin := advance_armed _ i k1 hopen2 k4
  rw [typingBurst, runInputs, hfin, k5, k3, h7, h6, h3, hidle, lastTime]
  by_cases hv : value = ""
  · simp [hv, firstNonEmpty]
  · simp [hv, firstNonEmpty]

/-- Three keystrokes `m`, `me`, `mer` half a second apart. -/
theorem typing_debounce_witness :
    (typingBurst exampleOpen [(100, "m"), (500, "me"), (500, "mer")]).log
      = exampleOpen.log ++
        (match firstNonEmpty exampleOpen.now [(100, "m"), (500, "me"), (500, "mer")] with
          | some t => [(t, Effect.send 0 (Frame.typing true))]
          | none => []) ++
        [(lastTime exampleOpen.now [(100, "m"), (500, "me"), (500, "mer")] + 2000,
          Effect.send 0 (Frame.typing false))] :=
  typing_debounce exampleOpen 0 100 "m" [(500, "me"), (500, "mer")]
    (by decide) (by decide) (by decide) (by decide) (by decide)

/-- C2 fails as stated: with a draft `a` in the box and the client idle, a
backspace that empties the box is an input event after which no `typing:true`
frame is written, while the idle timer still writes `typing:false`. -/
theorem empty_value_sends_no_typing_true :
    exampleDraft.isTyping = false ∧ exampleDraft.timers = [] ∧
    openSocket exampleDraft = some 0 ∧ exampleDraft.messageInput = "a" ∧
    exampleDraft.now = 2000 ∧
    sentFrames (typingBurst exampleDraft [(500, "")]).log
      = sentFrames exampleDraft.log ++ [(4500, 0, Frame.typing false)] ∧
    (typingFrames (typingBurst exampleDraft [(500, "")]).log true).length
      = (typingFrames exampleDraft.log true).length := by
  decide

/-! ## Typing frames around a sent message -/

/-- C10: one keystroke leaving `a` in the box, `sendMessage` one second later and
then two quiet seconds: the client writes `typing:true`, the message, a
`typing:false` from `sendMessage` and, one second later, a second
`typing:false` from the idle timer that was still pending. -/
theorem sendMessage_keeps_idle_timer :
    (sendMessage (advance (inputEvent exampleOpen "a") 1000)).timers
      = [⟨0, 2000, TimerAction.typingIdle⟩] ∧
    sentFrames (advance (sendMessage (advance (inputEvent exampleOpen "a") 1000)) 2000).log
      = [(0, 0, Frame.typing true), (1000, 0, Frame.message "a"),
         (1000, 0, Frame.typing false), (2000, 0, Frame.typing false)] := by
  decide

/-! ## Live connections -/

theorem countP_set_live (l : List ReadyState) (i : Nat) (r r1 : ReadyState)
    (h : l[i]? = some r) (hr : r ≠ ReadyState.CLOSED) :
    (l.set i r1).countP (fun x => x != ReadyState.CLOSED)
        + (if r1 = ReadyState.CLOSED then 1 else 0)
      = l.countP (fun x => x != ReadyState.CLOSED) := by
  induction l generalizing i with
  | nil => simp at h
  | cons a as ih =>
    cases i with
    | zero =>
      simp at h
      subst h
      by_cases h1 : r1 = ReadyState.CLOSED
      · simp [List.countP_cons, h1, hr]
      · simp [List.countP_cons, h1, hr]
    | succ j =>
      simp at h
      have := ih j h
      simp only [List.set_cons_succ, List.countP_cons]
      omega

theorem countP_filter_id (p : Timer → Bool) (ts : List Timer) (t : Timer) (hm : t ∈ ts)
    (hn : (ts.map (fun u => u.id)).Nodup) :
    (ts.filter (fun u => u.id != t.id)).countP p + (if p t then 1 else 0) = ts.countP p := by
  induction ts with
  | nil => simp at hm
  | cons u us ih =>
    simp only [List.map_cons, List.nodup_cons, List.mem_map, not_exists, not_and] at hn
    obtain ⟨hu, hus⟩ := hn
    rcases List.mem_cons.1 hm with heq | hmem
    · subst heq
      have hkeep : us.filter (fun u => u.id != t.id) = us := by
        rw [List.filter_eq_self]
        intro x hx
        have := hu x hx
        simpa using this
      simp only [List.filter_cons, bne_self_eq_false, Bool.false_eq_true, if_false, hkeep,
        List.countP_cons]
    · have hne : u.id ≠ t.id := fun e => hu t hmem e.symm
      have := ih hmem hus
      simp only [List.filter_cons, bne_iff_ne, ne_eq, hne, not_false_eq_true, if_true,
        List.countP_cons]
      omega

theorem onopen_sockets (s : State) : (onopen s).sockets = s.sockets := by
  unfold onopen
  split
  · rfl
  · split
    · rfl
    · rfl
    · split <;> rfl

theorem onopen_timers (s : State) : (onopen s).timers = s.timers := by
  unfold onopen
  split
  · rfl
  · split
    · rfl
    · rfl
    · split <;> rfl

theorem onopen_nextTimerId (s : State) : (onopen s).nextTimerId = s.nextTimerId := by
  unfold onopen
  split
  · rfl
  · split
    · rfl
    · rfl
    · split <;> rfl

theorem logout_timers (s : State) :
    (logout s).timers = s.timers ∧ (logout s).nextTimerId = s.nextTimerId := by
  unfold logout
  cases s.ws with
  | none => exact ⟨rfl, rfl⟩
  | some i =>
    simp only [showLogin, closeSocket]
    split <;> exact ⟨rfl, rfl⟩

theorem logout_liveSockets (s : State) : liveSockets (logout s) = liveSockets s := by
  unfold logout
  cases s.ws with
  | none => rfl
  | some i =>
    simp only [showLogin, closeSocket, liveSockets]
    split
    · rename_i h
      have := countP_set_live s.sockets i _ ReadyState.CLOSING h (by decide)
      simpa using this
    · rename_i h
      have := countP_set_live s.sockets i _ ReadyState.CLOSING h (by decide)
      simpa using this
    · rfl

/-- One event keeps the timer table well formed and changes the number of live
sockets plus pending reconnects by the number of direct connection starts. -/
theorem step_count (s s1 : State) (e : Event) (hwf : TimersWellFormed s)
    (hstep : step s e = some s1) :
    TimersWellFormed s1 ∧
    liveSockets s1 + pendingReconnects s1
      = liveSockets s + pendingReconnects s + (if startsConnection e then 1 else 0) := by
  cases e with
  | loginSuccess name =>
    simp only [step, Option.some.injEq] at hstep
    subst hstep
    refine ⟨hwf, ?_⟩
    simp [loginResponse, connectWebSocket, loadChannels, showChat, emit, liveSockets,
      pendingReconnects, startsConnection, List.countP_append]
    omega
  | registerSuccess name =>
    simp only [step, Option.some.injEq] at hstep
    subst hstep
    refine ⟨hwf, ?_⟩
    simp [registerResponse, connectWebSocket, loadChannels, showChat, emit, liveSockets,
      pendingReconnects, startsConnection, List.countP_append]
    omega
  | logout =>
    simp only [step, Option.some.injEq] at hstep
    subst hstep
    have ht := logout_timers s
    refine ⟨?_, ?_⟩
    · unfold TimersWellFormed
      rw [ht.1, ht.2]
      exact hwf
    · rw [logout_liveSockets]
      simp [pendingReconnects, ht.1, startsConnection]
  | socketOpen i =>
    simp only [step, socketOpen] at hstep
    split at hstep
    · rename_i h
      simp only [Option.some.injEq] at hstep
      subst hstep
      refine ⟨?_, ?_⟩
      · unfold TimersWellFormed
        rw [onopen_timers, onopen_nextTimerId]
        exact hwf
      · have := countP_set_live s.sockets i _ ReadyState.OPEN h (by decide)
        simp only [liveSockets, pendingReconnects, onopen_sockets, onopen_timers,
          startsConnection]
        simpa using this
    · simp at hstep
  | socketClose i =>
    simp only [step, socketClose] at hstep
    split at hstep
    · rename_i r h
      split at hstep
      · simp at hstep
      · rename_i hr
        simp only [Option.some.injEq] at hstep
        subst hstep
        obtain ⟨hnd, hlt⟩ := hwf
        refine ⟨⟨?_, ?_⟩, ?_⟩
        · simp only [onclose, setTimeout, List.map_append, List.map_cons, List.map_nil]
          rw [List.nodup_append]
          refine ⟨hnd, by simp, ?_⟩
          intro a ha hb
          simp only [List.mem_map] at ha
          obtain ⟨t, ht, rfl⟩ := ha
          simp only [List.mem_singleton] at hb
          have := hlt t ht
          omega
        · intro t ht
          simp only [onclose, setTimeout, List.mem_append, List.mem_singleton] at ht
          rcases ht with ht | ht
          · have := hlt t ht
            simp only [onclose, setTimeout]
            omega
          · subst ht
            simp [onclose, setTimeout]
        · have := countP_set_live s.sockets i r ReadyState.CLOSED h hr
          simp only [if_true] at this
          simp only [liveSockets, pendingReconnects, onclose, setTimeout, List.countP_append,
            startsConnection]
          simp
          omega
    · simp at hstep
  | socketError i =>
    simp only [step, socketError] at hstep
    split at hstep
    · split at hstep
      · simp at hstep
      · simp only [Option.some.injEq] at hstep
        subst hstep
        exact ⟨hwf, by simp [onerror, liveSockets, pendingReconnects, startsConnection]⟩
    · simp at hstep
  | reconnectTimer h =>
    simp only [step, reconnectTimer] at hstep
    split at hstep
    · rename_i t hfind
      split at hstep
      · rename_i hact
        simp only [Option.some.injEq] at hstep
        subst hstep
        have hm : t ∈ s.timers := List.mem_of_find?_eq_some hfind
        obtain ⟨hnd, hlt⟩ := hwf
        refine ⟨⟨?_, ?_⟩, ?_⟩
        · simp only [fireTimer, hact, runTimer, connectWebSocket]
          exact (List.filter_sublist _).map _ |>.nodup hnd
        · intro u hu
          simp only [fireTimer, hact, runTimer, connectWebSocket] at hu ⊢
          exact hlt u (List.mem_of_mem_filter hu)
        · have := countP_filter_id (fun t => t.action == TimerAction.connectWebSocket)
            s.timers t hm hnd
          simp only [hact, beq_self_eq_true, if_true] at this
          simp only [liveSockets, pendingReconnects, fireTimer, hact, runTimer, connectWebSocket,
            List.countP_append, startsConnection]
          simp
          omega
      · simp at hstep
    · simp at hstep

theorem run_count (events : List Event) :
    ∀ s s1 : State, TimersWellFormed s → run s events = some s1 →
    liveSockets s1 + pendingReconnects s1
      = liveSockets s + pendingReconnects s + events.countP startsConnection := by
  induction events with
  | nil =>
    intro s s1 _ h
    simp only [run, Option.some.injEq] at h
    subst h
    simp
  | cons e es ih =>
    intro s s1 hwf h
    simp only [run] at h
    split at h
    · rename_i s2 hs2
      obtain ⟨hwf2, hc⟩ := step_count s s2 e hwf hs2
      have := ih s2 s1 hwf2 h
      rw [List.countP_cons]
      omega
    · simp at h

theorem pageLoad_count (stored : Option String) :
    TimersWellFormed (onDOMContentLoaded (init stored)) ∧
    liveSockets (onDOMContentLoaded (init stored))
        + pendingReconnects (onDOMContentLoaded (init stored))
      = if loggedIn (init stored) then 1 else 0 := by
  unfold onDOMContentLoaded
  split
  · simp [TimersWellFormed, connectWebSocket, loadChannels, showChat, emit, init, liveSockets,
      pendingReconnects]
  · simp [TimersWellFormed, showLogin, init, liveSockets, pendingReconnects]

/-- C4, as the code has it: in every state reached from page load by the events
of the connection life cycle, the live sockets and the pending reconnects
together number as many as the direct calls of `connectWebSocket` (one for a
page load with a stored user name, one for each successful login or
registration); so at most one socket is live as long as at most one such call
has been made. -/
theorem live_connections_count (stored : Option String) (events : List Event) (s : State)
    (h : run (onDOMContentLoaded (init stored)) events = some s) :
    liveSockets s + pendingReconnects s = connectionStarts stored events ∧
    (connectionStarts stored events ≤ 1 → liveSockets s ≤ 1) := by
  have h0 := pageLoad_count stored
  have h1 := run_count events _ s h0.1 h
  have h2 : liveSockets s + pendingReconnects s = connectionStarts stored events := by
    unfold connectionStarts
    omega
  exact ⟨h2, fun hle => by omega⟩

/-- A login, the socket opening, a close and the reconnect that follows. -/
theorem live_connections_count_witness :
    run (onDOMContentLoaded (init none)) exampleReconnect = some exampleReconnected ∧
    liveSockets exampleReconnected + pendingReconnects exampleReconnected
      = connectionStarts none exampleReconnect ∧
    liveSockets exampleReconnected ≤ 1 :=
  ⟨by decide,
   (live_connections_count none exampleReconnect exampleReconnected (by decide)).1,
   (live_connections_count none exampleReconnect exampleReconnected (by decide)).2 (by decide)⟩

/-- C4 fails as stated: after a logout, a second login made before the reconnect
timer expires leaves the socket of that login and the socket of the reconnect
open side by side. -/
theorem two_live_connections :
    (run (onDOMContentLoaded (init none)) exampleRelogin).map
        (fun s => (s.sockets, liveSockets s, openSockets s))
      = some ([ReadyState.CLOSED, ReadyState.OPEN, ReadyState.OPEN], 2, 2) := by
  decide

end ChatLog
